import Mathlib

/-!
Shallow embedding of the MyPlanner Django application (planner app):
the data model of `planner/models.py`, the form logic of `planner/forms.py`
and the view logic of `planner/views_html.py` / `planner/views.py`,
together with theorems settling the specification claims about
ownership isolation, task/tag mutation, filtering, ordering, events,
bulk tag deletion and the completion toggle.
-/

namespace MyPlanner

abbrev UserId := Nat
abbrev ListId := Nat
abbrev TaskId := Nat
abbrev TagId := Nat
abbrev CommentId := Nat
abbrev ReminderId := Nat
abbrev EventId := Nat

/-- `TypeToDoList` (models.py): name plus an optional owner (`null=True`). -/
structure TypeToDoList where
  id : ListId
  name : String
  owner : Option UserId
deriving DecidableEq, Repr

/-- `Task` (models.py): title, description, optional due date, completion
flag, priority (choices 1–4, default 4), the list it belongs to and an
optional owner.  Dates are encoded as ordinals. -/
structure Task where
  id : TaskId
  title : String
  description : String
  dueDate : Option Nat
  isCompleted : Bool
  priority : Nat
  listId : ListId
  owner : Option UserId
deriving DecidableEq, Repr

/-- `Tag` (models.py): a globally unique `name` and the `tasks`
many-to-many.  The model declares no owner column. -/
structure Tag where
  id : TagId
  name : String
deriving DecidableEq, Repr

/-- One row of the tag–task many-to-many through table
(`Tag.tasks` in models.py, reverse accessor `task.tags`). -/
structure TagTask where
  tagId : TagId
  taskId : TaskId
deriving DecidableEq, Repr

/-- One row of the collaborators many-to-many (`Task.users` in models.py). -/
structure TaskCollaborator where
  taskId : TaskId
  userId : UserId
deriving DecidableEq, Repr

/-- `Comment` (models.py): belongs to one task, has an author and a body. -/
structure Comment where
  id : CommentId
  taskId : TaskId
  author : UserId
  body : String
  createdAt : Nat
deriving DecidableEq, Repr

/-- `Reminder` (models.py): belongs to one task, has a datetime, a note
and an optional owner. -/
structure Reminder where
  id : ReminderId
  taskId : TaskId
  remindAt : Nat
  note : String
  owner : Option UserId
  createdAt : Nat
deriving DecidableEq, Repr

/-- `Event` (models.py): a one-to-one time window on a task. -/
structure Event where
  id : EventId
  taskId : TaskId
  startTime : Nat
  endTime : Nat
deriving DecidableEq, Repr

/-- The persisted database state: one table per model plus the two
many-to-many through tables. -/
structure DB where
  lists : List TypeToDoList
  tasks : List Task
  tags : List Tag
  tagTasks : List TagTask
  collaborators : List TaskCollaborator
  comments : List Comment
  reminders : List Reminder
  events : List Event
deriving DecidableEq, Repr

/-- Errors surfaced by the embedded operations.  `fieldError` is Django's
`FieldError` ("Cannot resolve keyword ... into field"), raised when a query
keyword does not resolve against the model's declared columns. -/
inductive QueryError where
  | fieldError
deriving DecidableEq, Repr

/-- Query keywords that resolve against the `Tag` model of models.py:
the surrogate key, the unique `name` and the `tasks` many-to-many.
`owner` is not among them — the model declares no such field. -/
def tagModelFields : List String := ["id", "name", "tasks"]

/-- Django keyword resolution against the `Tag` model: a keyword outside
the declared columns raises `FieldError` before any row is read. -/
def resolveTagKeyword (kw : String) : Except QueryError Unit :=
  if kw ∈ tagModelFields then .ok () else .error .fieldError

/-- `Tag.objects.filter(owner=user)` as used by `TaskForm.__init__`,
`TaskFilterForm.__init__`, `MyTagsBulkForm.__init__` (forms.py) and the
API tag views (views.py).  The keyword `owner` fails to resolve against
the `Tag` model, so the call raises `FieldError`.  (The `.ok` branch is
unreachable with the declared columns; there is no owner column to
compare against, so it can only return the whole table.) -/
def tagFilterByOwner (db : DB) (_u : UserId) : Except QueryError (List Tag) :=
  match resolveTagKeyword "owner" with
  | .error e => .error e
  | .ok _ => .ok db.tags

/-- Largest tag id in use, for creating fresh tags. -/
def nextTagId (db : DB) : TagId :=
  (db.tags.map Tag.id).foldl max 0 + 1

/-- `Tag.objects.get_or_create(name=name, owner=self._user)`
(forms.py, `TaskForm.save`).  Both keywords are resolved against the
`Tag` model; `owner` fails to resolve, so the call raises `FieldError`
before reading or writing any row.  (The `.ok` branch is unreachable
with the declared columns; were it reached, only the `name` keyword
could be matched.) -/
def tagGetOrCreateOwned (db : DB) (_u : UserId) (nm : String) :
    Except QueryError (Tag × DB) :=
  match resolveTagKeyword "owner" with
  | .error e => .error e
  | .ok _ =>
    match db.tags.find? (fun t => t.name == nm) with
    | some t => .ok (t, db)
    | none =>
      let t : Tag := ⟨nextTagId db, nm⟩
      .ok (t, { db with tags := db.tags ++ [t] })

/-- Owner of the task carrying the given id, when that task exists. -/
def taskOwner (db : DB) (pk : TaskId) : Option UserId :=
  match db.tasks.find? (fun t => t.id == pk) with
  | some t => t.owner
  | none => none

/-- `get_object_or_404(Task, pk=pk, owner=request.user)` /
`Task.objects.filter(pk=pk, owner=request.user)` (views_html.py task
views, views.py `TaskDetailView`): `none` is the NotFound (404) outcome. -/
def getTaskOwned (db : DB) (u : UserId) (pk : TaskId) : Option Task :=
  db.tasks.find? (fun t => t.id == pk && t.owner == some u)

/-- `get_object_or_404(TypeToDoList, pk=pk, owner=request.user)`
(views_html.py list views, views.py list detail). -/
def getListOwned (db : DB) (u : UserId) (pk : ListId) : Option TypeToDoList :=
  db.lists.find? (fun l => l.id == pk && l.owner == some u)

/-- `get_object_or_404(Reminder, pk=rid, owner=request.user)`
(views_html.py `html_reminder_delete`). -/
def getReminderOwned (db : DB) (u : UserId) (pk : ReminderId) : Option Reminder :=
  db.reminders.find? (fun r => r.id == pk && r.owner == some u)

/-- `get_object_or_404(Event, pk=pk, task__owner=request.user)`
(views_html.py `html_event_edit` / `html_event_delete`, views.py event
views): ownership is derived through the parent task. -/
def getEventOwned (db : DB) (u : UserId) (pk : EventId) : Option Event :=
  db.events.find? (fun e => e.id == pk && taskOwner db e.taskId == some u)

/-- Outcome of `html_comment_delete` (views_html.py): the comment is
fetched with `get_object_or_404(Comment, pk=pk)` — with no ownership
scoping — and a requester who is neither the author nor the task owner
receives an error message and a redirect (`forbidden`), not a 404. -/
inductive CommentDeleteOutcome where
  | notFound
  | forbidden
  | deleted
deriving DecidableEq, Repr

/-- `html_comment_delete(request, pk)` (views_html.py lines 440–452). -/
def htmlCommentDelete (db : DB) (u : UserId) (pk : CommentId) :
    CommentDeleteOutcome × DB :=
  match db.comments.find? (fun c => c.id == pk) with
  | none => (.notFound, db)
  | some c =>
    if c.author ≠ u ∧ taskOwner db c.taskId ≠ some u then
      (.forbidden, db)
    else
      (.deleted, { db with comments := db.comments.filter (fun d => d.id ≠ pk) })

/-- ASCII lowercasing of one character, as Python's `str.lower` acts on
the inputs occurring here. -/
def lowerChar (c : Char) : Char :=
  if 'A' ≤ c ∧ c ≤ 'Z' then Char.ofNat (c.toNat + 32) else c

/-- Python's `str.lower`, character-wise. -/
def strLower (s : String) : String := ⟨s.data.map lowerChar⟩

/-- Whitespace as stripped by Python's `str.strip`. -/
def isSpaceChar (c : Char) : Bool :=
  c = ' ' || c = '\t' || c = '\n' || c = '\r'

/-- Python's `str.strip`: drop whitespace at both ends. -/
def strTrim (s : String) : String :=
  ⟨((s.data.dropWhile isSpaceChar).reverse.dropWhile isSpaceChar).reverse⟩

/-- Python's `v.startswith("NEW__")`. -/
def strStartsWithNew (s : String) : Bool :=
  "NEW__".data.isPrefixOf s.data

/-- Python's `v[5:]`. -/
def strDrop5 (s : String) : String := ⟨s.data.drop 5⟩

/-- Helper for `strSplitComma`, structural on the character list. -/
def splitCommaAux : List Char → List Char → List String
  | [], acc => [⟨acc.reverse⟩]
  | c :: rest, acc =>
    if c = ',' then ⟨acc.reverse⟩ :: splitCommaAux rest []
    else splitCommaAux rest (c :: acc)

/-- Python's `s.split(",")`: empty pieces are preserved. -/
def strSplitComma (s : String) : List String := splitCommaAux s.data []

/-- Cleaned input of a `TaskForm` submission (forms.py): the model fields
of `Meta.fields`, the validated existing-tag selection, the raw
`tags` values as posted (possibly holding `NEW__<name>` placeholders,
captured by `clean_tags`), and the comma-separated `new_tags` text field.
`instanceId` is the primary key of the edited task (`none` on create) and
`instanceOwner` its stored owner before the save. -/
structure TaskFormData where
  instanceId : Option TaskId
  instanceOwner : Option UserId
  title : String
  description : String
  dueDate : Option Nat
  isCompleted : Bool
  priority : Nat
  listId : ListId
  selectedTagIds : List TagId
  rawTagValues : List String
  newTagsCsv : String
deriving DecidableEq, Repr

/-- `clean_tags` (forms.py): collect the names hidden in `NEW__<name>`
placeholder values of the posted `tags` list, stripped, dropping empties. -/
def newNamesFromRaw (raw : List String) : List String :=
  (raw.filterMap (fun v =>
    if strStartsWithNew v then
      let nm := strTrim (strDrop5 v)
      if nm ≠ "" then some nm else none
    else none))

/-- The comma-separated `new_tags` field parse in `TaskForm.save`
(forms.py): the field is stripped, and when nonempty it is split on
commas, each part stripped, empty parts discarded. -/
def newNamesFromCsv (csv : String) : List String :=
  let c := strTrim csv
  if c ≠ "" then
    ((strSplitComma c).map strTrim).filter (fun s => s ≠ "")
  else []

/-- Largest task id in use, for creating fresh tasks. -/
def nextTaskId (db : DB) : TaskId :=
  (db.tasks.map Task.id).foldl max 0 + 1

/-- `task.save()`: insert the row or replace the row with the same pk. -/
def upsertTask (db : DB) (t : Task) : DB :=
  if db.tasks.any (fun x => x.id == t.id) then
    { db with tasks := db.tasks.map (fun x => if x.id == t.id then t else x) }
  else
    { db with tasks := db.tasks ++ [t] }

/-- `task.tags.set(selected_tags)`: replace the task's tag associations
with exactly the selected ones (set semantics). -/
def setTaskTags (db : DB) (pk : TaskId) (tagIds : List TagId) : DB :=
  { db with tagTasks :=
      db.tagTasks.filter (fun r => r.taskId ≠ pk) ++
        tagIds.map (fun tid => ⟨tid, pk⟩) }

/-- `task.tags.add(tag)`: attach one more tag, a no-op when the
association already exists. -/
def addTaskTag (db : DB) (pk : TaskId) (tid : TagId) : DB :=
  if db.tagTasks.any (fun r => r.tagId == tid && r.taskId == pk) then db
  else { db with tagTasks := db.tagTasks ++ [⟨tid, pk⟩] }

/-- The new-tag loop of `TaskForm.save` (forms.py lines 140–143):
`get_or_create` each name for the current user and attach the result.
A failure is reported together with the state written so far. -/
def attachNewTags (db : DB) (u : UserId) (pk : TaskId) :
    List String → Option QueryError × DB
  | [] => (none, db)
  | nm :: rest =>
    match tagGetOrCreateOwned db u nm with
    | .error e => (some e, db)
    | .ok (tg, db') => attachNewTags (addTaskTag db' pk tg.id) u pk rest

/-- The body of `TaskForm.save` (forms.py lines 121–147), before the
`transaction.atomic` wrapper: build the task from the cleaned fields,
default its owner to the current user, save it, replace its tag set with
the explicit selection, then create/attach each new tag name gathered
from the `NEW__` placeholders and the comma-separated field.  The second
component is the state as written so far, including partial writes made
before a failure. -/
def taskFormSaveBody (db : DB) (u : UserId) (d : TaskFormData) :
    Option QueryError × DB :=
  let pk := match d.instanceId with
    | some i => i
    | none => nextTaskId db
  let task : Task :=
    { id := pk
      title := d.title
      description := d.description
      dueDate := d.dueDate
      isCompleted := d.isCompleted
      priority := d.priority
      listId := d.listId
      owner := match d.instanceOwner with
        | some o => some o
        | none => some u }
  let db1 := upsertTask db task
  let db2 := setTaskTags db1 pk d.selectedTagIds
  let newNames := newNamesFromRaw d.rawTagValues ++ newNamesFromCsv d.newTagsCsv
  attachNewTags db2 u pk newNames

/-- `TaskForm.save` (forms.py): the body runs under `@transaction.atomic`,
so on any failure every write of the body is rolled back and the
pre-operation state is kept; on success all writes persist together. -/
def taskFormSave (db : DB) (u : UserId) (d : TaskFormData) :
    Option QueryError × DB :=
  match taskFormSaveBody db u d with
  | (some e, _) => (some e, db)
  | (none, db') => (none, db')

/-- Tag ids attached to a task, in through-table order. -/
def tagsOfTask (db : DB) (pk : TaskId) : List TagId :=
  (db.tagTasks.filter (fun r => r.taskId == pk)).map TagTask.tagId

/-- Case-insensitive substring test: Django's `icontains` lookup. -/
def icontains (hay needle : String) : Bool :=
  let h := (strLower hay).data
  let n := (strLower needle).data
  (List.range (h.length + 1)).any (fun i => n.isPrefixOf (h.drop i))

/-- Boolean lexicographic comparison of character lists. -/
def charListLeb : List Char → List Char → Bool
  | [], _ => true
  | _ :: _, [] => false
  | a :: as, b :: bs =>
    if a < b then true
    else if b < a then false
    else charListLeb as bs

/-- Boolean lexicographic string comparison, used for `order_by("name")`. -/
def strLeb (a b : String) : Bool := charListLeb a.data b.data

/-- Whether the task carries the tag (a row of the through table). -/
def taskHasTag (db : DB) (t : Task) (tid : TagId) : Bool :=
  db.tagTasks.any (fun r => r.tagId == tid && r.taskId == t.id)

/-- The free-text `q` filter of `html_filters` (views_html.py lines
339–345): case-insensitive substring match on title, description, list
name or any attached tag name; the `.distinct()` duplicate removal is
inherent to filtering a duplicate-free row list. -/
def taskMatchesSearch (db : DB) (t : Task) (s : String) : Bool :=
  icontains t.title s ||
  icontains t.description s ||
  (db.lists.any (fun l => l.id == t.listId && icontains l.name s)) ||
  (db.tags.any (fun tg => taskHasTag db t tg.id && icontains tg.name s))

/-- Query parameters of `html_filters` after the request parsing of
views_html.py lines 333–337: stripped search text, optional list id,
optional priority, the tri-state done flag and the selected tag ids. -/
structure FilterQuery where
  q : String
  listId : Option ListId
  priority : Option Nat
  done : Option Bool
  tagIds : List TagId
deriving DecidableEq, Repr

/-- The `html_filters` pipeline up to and including the `done` filter
(views_html.py lines 323–352): owner scoping, then the optional search,
list, priority and completion filters, each applied only when supplied. -/
def htmlFiltersPreTags (db : DB) (u : UserId) (fq : FilterQuery) : List Task :=
  let qs := db.tasks.filter (fun t => t.owner == some u)
  let qs := if fq.q ≠ "" then qs.filter (fun t => taskMatchesSearch db t fq.q) else qs
  let qs := match fq.listId with
    | some l => qs.filter (fun t => t.listId == l)
    | none => qs
  let qs := match fq.priority with
    | some p => qs.filter (fun t => t.priority == p)
    | none => qs
  match fq.done with
  | some b => qs.filter (fun t => t.isCompleted == b)
  | none => qs

/-- The tag filter of `html_filters` (views_html.py lines 354–356): one
chained `.filter(tags__id=tid)` per selected tag id, so a surviving task
must carry every selected tag (AND semantics). -/
def htmlFiltersFiltered (db : DB) (u : UserId) (fq : FilterQuery) : List Task :=
  fq.tagIds.foldl (fun qs tid => qs.filter (fun t => taskHasTag db t tid))
    (htmlFiltersPreTags db u fq)

/-- Sort key of `order_by("priority", "due_date", "title")`
(views_html.py line 358): ascending priority, then the due date, then the
title.  Modelled from the spec: the database backend configuration
(the project settings module) is not under src/, so the backend-decided
placement of NULL due dates and the row order of full ties are fixed the
way the spec prescribes — NULL due dates sort last and exact ties fall
back to the surrogate id. -/
def taskSortKey (t : Task) : Nat ×ₗ (Nat ×ₗ (Nat ×ₗ (String ×ₗ Nat))) :=
  toLex (t.priority,
    toLex ((match t.dueDate with | some _ => 0 | none => 1),
      toLex ((match t.dueDate with | some d => d | none => 0),
        toLex (t.title, t.id))))

/-- The task ordering relation induced by `taskSortKey`. -/
def taskOrd (a b : Task) : Prop := taskSortKey a ≤ taskSortKey b

instance : DecidableRel taskOrd := fun a b =>
  inferInstanceAs (Decidable (taskSortKey a ≤ taskSortKey b))

instance : IsTotal Task taskOrd := ⟨fun a b => le_total (taskSortKey a) (taskSortKey b)⟩

instance : IsTrans Task taskOrd := ⟨fun _ _ _ h h' => le_trans h h'⟩

/-- The ordered result of `html_filters` (views_html.py line 358). -/
def htmlFilters (db : DB) (u : UserId) (fq : FilterQuery) : List Task :=
  List.insertionSort taskOrd (htmlFiltersFiltered db u fq)

/-- `Tag.objects.filter(tasks__owner=user).distinct().order_by("name")`
(views_html.py line 331): the tags offered on the filters page are the
ones attached to at least one task owned by the current user — derived
visibility, not an owner column. -/
def htmlFiltersTagListing (db : DB) (u : UserId) : List Tag :=
  List.insertionSort (fun a b => strLeb a.name b.name = true)
    (db.tags.filter (fun tg =>
      db.tagTasks.any (fun r =>
        r.tagId == tg.id &&
          db.tasks.any (fun t => t.id == r.taskId && t.owner == some u))))

/-- The queryset of the API tag views (`TagListCreateView` /
`TagDetailView`, views.py): `Tag.objects.filter(owner=self.request.user)`,
which raises `FieldError` because the `Tag` model has no owner column. -/
def apiTagListing (db : DB) (u : UserId) : Except QueryError (List Tag) :=
  tagFilterByOwner db u

/-- `MyTagsBulkForm` bulk delete as wired in `html_settings`
(views_html.py line 381, forms.py lines 234–249): the form first scopes
its choices with `Tag.objects.filter(owner=user)` — raising `FieldError`
since the `Tag` model has no owner column — and were a selection cleaned,
`delete_from_database` would filter by the same unresolvable keyword. -/
def myTagsBulkDelete (db : DB) (u : UserId) (tagIds : List TagId) :
    Except QueryError (Nat × DB) :=
  match tagFilterByOwner db u with
  | .error e => .error e
  | .ok _choices =>
    if tagIds.isEmpty then .ok (0, db)
    else
      match tagFilterByOwner db u with
      | .error e => .error e
      | .ok owned =>
        let victims := (owned.filter (fun t => t.id ∈ tagIds)).map Tag.id
        .ok (victims.length,
          { db with
              tags := db.tags.filter (fun t => t.id ∉ victims)
              tagTasks := db.tagTasks.filter (fun r => r.tagId ∉ victims) })

/-- Outcome of `html_event_add` (views_html.py lines 457–476). -/
inductive EventAddOutcome where
  | notFound
  | conflict
  | validationError
  | added
deriving DecidableEq, Repr

/-- Whether some event row already points at the task
(`hasattr(task, "event")` on the one-to-one relation). -/
def taskHasEvent (db : DB) (pk : TaskId) : Bool :=
  db.events.any (fun e => e.taskId == pk)

/-- Largest event id in use, for creating fresh events. -/
def nextEventId (db : DB) : EventId :=
  (db.events.map Event.id).foldl max 0 + 1

/-- `html_event_add(request, task_pk)` (views_html.py lines 457–476):
fetch the task owner-scoped (404 otherwise), refuse with an error message
when the task already has an event, validate `end >= start` (the model's
`clean`, run by the form validation and `full_clean`), then insert. -/
def htmlEventAdd (db : DB) (u : UserId) (taskPk : TaskId)
    (startTime endTime : Nat) : EventAddOutcome × DB :=
  match getTaskOwned db u taskPk with
  | none => (.notFound, db)
  | some task =>
    if taskHasEvent db task.id then (.conflict, db)
    else if endTime < startTime then (.validationError, db)
    else (.added,
      { db with events := db.events ++ [⟨nextEventId db, task.id, startTime, endTime⟩] })

/-- Outcome of `toggle_task_done` (views_html.py lines 218–243). -/
inductive ToggleOutcome where
  | notFound
  | ok (done : Bool)
deriving DecidableEq, Repr

/-- The truthiness parse of `toggle_task_done`:
`str(value).lower() in ("1", "true", "on", "yes")`. -/
def parseDoneValue (s : String) : Bool :=
  strLower s ∈ ["1", "true", "on", "yes"]

/-- `toggle_task_done(request, pk)` (views_html.py lines 218–243): fetch
the task owner-scoped; `doneRaw` is the `done` value from the form body
or, failing that, the JSON body (`none` when neither supplies one).
Without a value the flag is negated, otherwise it is set to the parsed
truthiness, and the save writes `update_fields=["is_completed"]` only. -/
def toggleTaskDone (db : DB) (u : UserId) (pk : TaskId)
    (doneRaw : Option String) : ToggleOutcome × DB :=
  match getTaskOwned db u pk with
  | none => (.notFound, db)
  | some task =>
    let newVal := match doneRaw with
      | none => !task.isCompleted
      | some s => parseDoneValue s
    (.ok newVal,
      { db with tasks := db.tasks.map (fun t =>
          if t.id == pk then { t with isCompleted := newVal } else t) })

/-- Frame predicate of the completion toggle: every persisted field of
the task except `is_completed` agrees. -/
def sameExceptCompleted (a b : Task) : Prop :=
  b.id = a.id ∧ b.title = a.title ∧ b.description = a.description ∧
  b.dueDate = a.dueDate ∧ b.priority = a.priority ∧ b.listId = a.listId ∧
  b.owner = a.owner

/-- The one-to-one invariant of models.py: no task has two event rows. -/
def atMostOneEventPerTask (db : DB) : Prop :=
  ∀ tid : TaskId, ((db.events.filter (fun ev => ev.taskId == tid)).length ≤ 1)

/-- Example state: user 1 owns list 5, task 10 in it, a comment, a
reminder and an event on that task; user 2 owns nothing. -/
def exDbOwned : DB :=
  { lists := [⟨5, "Home", some 1⟩]
    tasks := [⟨10, "T", "", none, false, 4, 5, some 1⟩]
    tags := []
    tagTasks := []
    collaborators := []
    comments := [⟨100, 10, 1, "hi", 0⟩]
    reminders := [⟨200, 10, 0, "", some 1, 0⟩]
    events := [⟨300, 10, 1, 2⟩] }

/-- Example state for the tag-mutation claims: task 10 of user 1 carries
tags A (id 1) and B (id 2). -/
def exDbTagged : DB :=
  { lists := [⟨5, "Home", some 1⟩]
    tasks := [⟨10, "T", "", none, false, 4, 5, some 1⟩]
    tags := [⟨1, "A"⟩, ⟨2, "B"⟩]
    tagTasks := [⟨1, 10⟩, ⟨2, 10⟩]
    collaborators := []
    comments := []
    reminders := []
    events := [] }

/-- Form data of the update described by the spec's replace-then-union
property: keep selected tag A (id 1) and add the new name C, submitted
as the placeholder value `NEW__C` in the tags input. -/
def exUpdateSelectANewC : TaskFormData :=
  { instanceId := some 10
    instanceOwner := some 1
    title := "T"
    description := ""
    dueDate := none
    isCompleted := false
    priority := 4
    listId := 5
    selectedTagIds := [1]
    rawTagValues := ["1", "NEW__C"]
    newTagsCsv := "" }

/-- Example state for the filter claims: user 1's task 11 carries only
tag `urgent` (id 1) while task 12 carries `urgent` and `important`
(ids 1 and 2). -/
def exDbFilter : DB :=
  { lists := [⟨5, "Home", some 1⟩]
    tasks := [⟨11, "only urgent", "", none, false, 4, 5, some 1⟩,
              ⟨12, "both", "", none, false, 4, 5, some 1⟩]
    tags := [⟨1, "urgent"⟩, ⟨2, "important"⟩]
    tagTasks := [⟨1, 11⟩, ⟨1, 12⟩, ⟨2, 12⟩]
    collaborators := []
    comments := []
    reminders := []
    events := [] }

/-- Ordering example of the spec: priority 2 with no due date. -/
def exTaskP2NoDue : Task := ⟨21, "a", "", none, false, 2, 5, some 1⟩

/-- Ordering example of the spec: priority 1, due date D1 = 100. -/
def exTaskP1D1 : Task := ⟨22, "b", "", some 100, false, 1, 5, some 1⟩

/-- Ordering example of the spec: priority 2, due date D2 = 200. -/
def exTaskP2D2 : Task := ⟨23, "c", "", some 200, false, 2, 5, some 1⟩

/-- Example state for the ordering claim: three tasks of user 1 with
priorities [2,1,2] and due dates [null, D1, D2]. -/
def exDbOrdering : DB :=
  { lists := [⟨5, "Home", some 1⟩]
    tasks := [exTaskP2NoDue, exTaskP1D1, exTaskP2D2]
    tags := []
    tagTasks := []
    collaborators := []
    comments := []
    reminders := []
    events := [] }

/-- The filter query with every criterion left unset. -/
def fqNone : FilterQuery := ⟨"", none, none, none, []⟩

theorem find?_owned_eq_none {α : Type} (p : α → Bool) (l : List α)
    (h : ∀ x ∈ l, p x = false) : l.find? p = none :=
  List.find?_eq_none.mpr (fun x hx => by simp [h x hx])

/-- Claim C1 (amended): a fetch/update/delete target query for a List,
Task, Reminder or Event owned (directly or through the parent task) by
user `a` returns NotFound (`none`) to any other user `b`; however,
deleting a Comment as a user who is neither its author nor its task's
owner yields a Forbidden-style error redirect with the comment kept —
not NotFound — and the API tag detail/list queryset raises `FieldError`
for every caller instead of scoping by owner. -/
theorem c1_ownership_isolation :
    (∀ (db : DB) (a b : UserId) (pk : TaskId),
      b ≠ a → (∀ t ∈ db.tasks, t.id = pk → t.owner = some a) →
        getTaskOwned db b pk = none) ∧
    (∀ (db : DB) (a b : UserId) (pk : ListId),
      b ≠ a → (∀ l ∈ db.lists, l.id = pk → l.owner = some a) →
        getListOwned db b pk = none) ∧
    (∀ (db : DB) (a b : UserId) (pk : ReminderId),
      b ≠ a → (∀ r ∈ db.reminders, r.id = pk → r.owner = some a) →
        getReminderOwned db b pk = none) ∧
    (∀ (db : DB) (a b : UserId) (pk : EventId),
      b ≠ a → (∀ e ∈ db.events, e.id = pk → taskOwner db e.taskId = some a) →
        getEventOwned db b pk = none) ∧
    (∀ (db : DB) (a b : UserId) (pk : CommentId) (c : Comment),
      b ≠ a → db.comments.find? (fun c' => c'.id == pk) = some c →
      c.author = a → taskOwner db c.taskId = some a →
        htmlCommentDelete db b pk = (.forbidden, db)) ∧
    (∀ (db : DB) (u : UserId), apiTagListing db u = .error .fieldError) := by
  refine ⟨?_, ?_, ?_, ?_, ?_, fun _ _ => rfl⟩
  · intro db a b pk hne h
    apply find?_owned_eq_none
    intro t ht
    simp only [Bool.and_eq_false_iff, beq_eq_false_iff_ne, ne_eq]
    by_cases hid : t.id = pk
    · exact Or.inr (by rw [h t ht hid]; exact fun hc => hne (Option.some.inj hc).symm)
    · exact Or.inl hid
  · intro db a b pk hne h
    apply find?_owned_eq_none
    intro l hl
    simp only [Bool.and_eq_false_iff, beq_eq_false_iff_ne, ne_eq]
    by_cases hid : l.id = pk
    · exact Or.inr (by rw [h l hl hid]; exact fun hc => hne (Option.some.inj hc).symm)
    · exact Or.inl hid
  · intro db a b pk hne h
    apply find?_owned_eq_none
    intro r hr
    simp only [Bool.and_eq_false_iff, beq_eq_false_iff_ne, ne_eq]
    by_cases hid : r.id = pk
    · exact Or.inr (by rw [h r hr hid]; exact fun hc => hne (Option.some.inj hc).symm)
    · exact Or.inl hid
  · intro db a b pk hne h
    apply find?_owned_eq_none
    intro e he
    simp only [Bool.and_eq_false_iff, beq_eq_false_iff_ne, ne_eq]
    by_cases hid : e.id = pk
    · exact Or.inr (by rw [h e he hid]; exact fun hc => hne (Option.some.inj hc).symm)
    · exact Or.inl hid
  · intro db a b pk c hne hfind hauth howner
    unfold htmlCommentDelete
    rw [hfind]
    dsimp only
    rw [if_pos]
    constructor
    · rw [hauth]; exact fun hc => hne hc.symm
    · rw [howner]; exact fun hc => hne (Option.some.inj hc).symm

/-- Witness for C1's amended theorem at a concrete state: user 2 cannot
see user 1's task, and user 2's attempt to delete user 1's comment is
refused with the Forbidden-style redirect. -/
theorem c1_ownership_isolation_witness :
    getTaskOwned exDbOwned 2 10 = none ∧
    htmlCommentDelete exDbOwned 2 100 = (.forbidden, exDbOwned) :=
  ⟨c1_ownership_isolation.1 exDbOwned 1 2 10 (by decide) (by decide),
   c1_ownership_isolation.2.2.2.2.1 exDbOwned 1 2 100 ⟨100, 10, 1, "hi", 0⟩
     (by decide) (by decide) rfl (by decide)⟩

/-- Counterexample to C1 as stated: user 2's attempt to delete user 1's
comment produces the Forbidden outcome — a constructor distinct from the
required NotFound — and the comment survives. -/
theorem c1_comment_delete_forbidden :
    htmlCommentDelete exDbOwned 2 100 = (CommentDeleteOutcome.forbidden, exDbOwned) := by
  decide

/-- Claim C2: `TaskForm.save` runs its body under `transaction.atomic`,
so whenever any part of the body fails the persisted state equals the
pre-operation state (every partial write rolled back), and on success
the state is exactly the body's final state, all writes kept together. -/
theorem c2_save_atomic :
    ∀ (db : DB) (u : UserId) (d : TaskFormData),
      ((taskFormSave db u d).1.isSome = true → (taskFormSave db u d).2 = db) ∧
      ((taskFormSave db u d).1 = none →
        (taskFormSave db u d).2 = (taskFormSaveBody db u d).2) := by
  intro db u d
  rcases hb : taskFormSaveBody db u d with ⟨e, db'⟩
  cases e <;> simp [taskFormSave, hb]

/-- Witness for C2 at a concrete failing update (new tag creation fails
mid-operation): the body really wrote intermediate state, and the
wrapped save returns the untouched pre-operation state. -/
theorem c2_save_atomic_witness :
    (taskFormSave exDbTagged 1 exUpdateSelectANewC).2 = exDbTagged ∧
    (taskFormSaveBody exDbTagged 1 exUpdateSelectANewC).2.tagTasks = [⟨1, 10⟩] :=
  ⟨(c2_save_atomic exDbTagged 1 exUpdateSelectANewC).1 (by decide), by decide⟩

/-- Claim C3 (code bug): updating task 10 (tags A,B) with selected=[A]
and the new name C does not end with tags A,C — the inline
`Tag.objects.get_or_create(name="C", owner=user)` raises `FieldError`
(the Tag model declares no owner column), the transaction rolls back,
and the tag set stays A,B. -/
theorem c3_replace_then_union_bug :
    (taskFormSave exDbTagged 1 exUpdateSelectANewC).1 = some QueryError.fieldError ∧
    tagsOfTask (taskFormSave exDbTagged 1 exUpdateSelectANewC).2 10 = [1, 2] := by
  decide

/-- Claim C4 (code bug): resolving a new tag name is not a working
get-or-create scoped to (owner, name) — the query keyword `owner` does
not resolve against the Tag model, so the call raises `FieldError` and
no tag is ever returned or created. -/
theorem c4_get_or_create_bug :
    tagGetOrCreateOwned exDbTagged 1 "Work" = Except.error QueryError.fieldError :=
  rfl

/-- Claim C5 (code bug): the filters page lists tags through the
derived policy (tags attached to the user's tasks) and succeeds, while
the API tag queryset applies the explicit per-tag-owner policy against a
model with no owner column and raises `FieldError` — two different
policies, one of them broken, not one policy applied consistently. -/
theorem c5_tag_policy_mixture :
    htmlFiltersTagListing exDbFilter 1 = [⟨2, "important"⟩, ⟨1, "urgent"⟩] ∧
    apiTagListing exDbFilter 1 = Except.error QueryError.fieldError :=
  ⟨by decide, rfl⟩

theorem mem_foldl_filter {p : TagId → Task → Bool} :
    ∀ (tids : List TagId) (l : List Task) (t : Task),
      t ∈ tids.foldl (fun qs tid => qs.filter (p tid)) l ↔
        (t ∈ l ∧ ∀ tid ∈ tids, p tid t = true) := by
  intro tids
  induction tids with
  | nil => intro l t; simp
  | cons a rest ih =>
    intro l t
    rw [List.foldl_cons, ih]
    simp [List.mem_filter, and_assoc]

/-- Claim C6: the chained per-tag filters of `html_filters` give AND
semantics — a task is in the result exactly when it survives the other
criteria and carries every selected tag; in particular the spec's
example: filtering by tags [urgent, important], the task tagged only
`urgent` is excluded and only the task carrying both appears. -/
theorem c6_tag_filter_and_semantics :
    (∀ (db : DB) (u : UserId) (fq : FilterQuery) (t : Task),
      t ∈ htmlFilters db u fq ↔
        (t ∈ htmlFiltersPreTags db u fq ∧
          ∀ tid ∈ fq.tagIds, taskHasTag db t tid = true)) ∧
    htmlFilters exDbFilter 1 ⟨"", none, none, none, [1, 2]⟩ =
      [⟨12, "both", "", none, false, 4, 5, some 1⟩] := by
  constructor
  · intro db u fq t
    unfold htmlFilters htmlFiltersFiltered
    rw [(List.perm_insertionSort taskOrd _).mem_iff]
    exact mem_foldl_filter _ _ _
  · decide

/-- Witness for C6 at a concrete state: the task carrying both selected
tags is in the filtered result, by the membership characterisation. -/
theorem c6_tag_filter_and_semantics_witness :
    (⟨12, "both", "", none, false, 4, 5, some 1⟩ : Task) ∈
      htmlFilters exDbFilter 1 ⟨"", none, none, none, [1, 2]⟩ :=
  (c6_tag_filter_and_semantics.1 exDbFilter 1 ⟨"", none, none, none, [1, 2]⟩
    ⟨12, "both", "", none, false, 4, 5, some 1⟩).mpr ⟨by decide, by decide⟩

/-- Claim C7: the result of `html_filters` is sorted by the total order
on (priority, due date with nulls last, title, id) and is a permutation
of the filtered set, and on the spec's example (priorities [2,1,2], due
dates [null, D1, D2]) it lists the priority-1 task first, then the
priority-2 task with due date D2, then the priority-2 task with no due
date. -/
theorem c7_result_ordering :
    (∀ (db : DB) (u : UserId) (fq : FilterQuery),
      List.Sorted taskOrd (htmlFilters db u fq) ∧
      List.Perm (htmlFilters db u fq) (htmlFiltersFiltered db u fq)) ∧
    (∀ a b : Task, taskOrd a b ∨ taskOrd b a) ∧
    htmlFilters exDbOrdering 1 fqNone = [exTaskP1D1, exTaskP2D2, exTaskP2NoDue] := by
  refine ⟨?_, ?_, ?_⟩
  · intro db u fq
    exact ⟨List.sorted_insertionSort taskOrd _, List.perm_insertionSort taskOrd _⟩
  · intro a b
    exact le_total (taskSortKey a) (taskSortKey b)
  · decide

/-- Witness for C7 at a concrete state: the ordering example's result is
sorted with respect to the task order. -/
theorem c7_result_ordering_witness :
    List.Sorted taskOrd (htmlFilters exDbOrdering 1 fqNone) :=
  (c7_result_ordering.1 exDbOrdering 1 fqNone).1

/-- Claim C8: when the owner adds an event to a task that already has
one, the outcome is the conflict refusal and the state — the existing
event included — is unchanged; moreover `html_event_add` preserves the
at-most-one-event-per-task invariant. -/
theorem c8_event_exclusivity :
    (∀ (db : DB) (u : UserId) (pk : TaskId) (s e : Nat) (t : Task) (ev : Event),
      getTaskOwned db u pk = some t → ev ∈ db.events → ev.taskId = t.id →
        htmlEventAdd db u pk s e = (.conflict, db)) ∧
    (∀ (db : DB) (u : UserId) (pk : TaskId) (s e : Nat),
      atMostOneEventPerTask db →
        atMostOneEventPerTask (htmlEventAdd db u pk s e).2) := by
  constructor
  · intro db u pk s e t ev hget hev hevtask
    unfold htmlEventAdd
    rw [hget]
    dsimp only
    rw [if_pos]
    exact List.any_eq_true.mpr ⟨ev, hev, by simp [hevtask]⟩
  · intro db u pk s e hinv tid
    unfold htmlEventAdd
    cases hget : getTaskOwned db u pk with
    | none => exact hinv tid
    | some t =>
      by_cases hev : taskHasEvent db t.id
      · simp only [hev, if_true]
        exact hinv tid
      · by_cases hlt : e < s
        · simp [hev, hlt]
          exact hinv tid
        · simp only [hev, hlt, Bool.false_eq_true, if_false]
          show (((db.events ++ [(⟨nextEventId db, t.id, s, e⟩ : Event)]).filter
              (fun ev => ev.taskId == tid)).length ≤ 1)
          rw [List.filter_append]
          by_cases htid : tid = t.id
          · have hnil : db.events.filter (fun x => x.taskId == tid) = [] := by
              apply List.filter_eq_nil_iff.mpr
              intro x hx
              have hx2 : ∀ y ∈ db.events, ¬ y.taskId = t.id := by
                simpa [taskHasEvent] using hev
              simpa [htid] using hx2 x hx
            rw [hnil, List.nil_append]
            exact List.length_filter_le _ _
          · have hone : ((⟨nextEventId db, t.id, s, e⟩ : Event).taskId == tid) = false := by
              simp only [beq_eq_false_iff_ne, ne_eq]
              exact fun h => htid h.symm
            simp only [List.filter_cons, hone, Bool.false_eq_true, if_false,
              List.filter_nil, List.append_nil]
            exact hinv tid

/-- Witness for C8 at a concrete state: task 10 already has event 300,
and the owner's second event creation is refused leaving the state
untouched. -/
theorem c8_event_exclusivity_witness :
    htmlEventAdd exDbOwned 1 10 5 6 = (.conflict, exDbOwned) :=
  c8_event_exclusivity.1 exDbOwned 1 10 5 6
    ⟨10, "T", "", none, false, 4, 5, some 1⟩ ⟨300, 10, 1, 2⟩
    (by decide) (by decide) rfl

/-- Counterexample to C9 as stated: deleting the user's own tag returns
a `FieldError`, so no `.ok` count of deleted tags is ever produced. -/
theorem c9_bulk_delete_counterexample :
    myTagsBulkDelete exDbFilter 1 [1] = Except.error QueryError.fieldError :=
  rfl

/-- Claim C9 (amended): every bulk tag delete invocation fails with
`FieldError` — the form scopes its choices, and the delete filters its
victims, by a `Tag.owner` column that the Tag model does not declare —
so no tags are deleted and no count is produced. -/
theorem c9_bulk_delete_field_error :
    ∀ (db : DB) (u : UserId) (ids : List TagId),
      myTagsBulkDelete db u ids = Except.error QueryError.fieldError :=
  fun _ _ _ => rfl

theorem forall2_map_self {α : Type} (f : α → α) (R : α → α → Prop) :
    ∀ l : List α, (∀ x ∈ l, R x (f x)) → List.Forall₂ R l (l.map f) := by
  intro l
  induction l with
  | nil => intro _; simp
  | cons a l ih =>
    intro h
    exact List.Forall₂.cons (h a (List.mem_cons_self a l))
      (ih (fun x hx => h x (List.mem_cons_of_mem a hx)))

/-- Claim C10: For a task owned by the requester, the completion toggle
negates the flag when no `done` value is supplied and otherwise sets it
to the parsed boolean; it touches nothing else — all other tables are
unchanged and every task keeps every field except possibly the targeted
task's `is_completed`. -/
theorem c10_toggle_frame :
    ∀ (db : DB) (u : UserId) (pk : TaskId) (raw : Option String) (t : Task),
      getTaskOwned db u pk = some t →
      ((toggleTaskDone db u pk raw).1 =
        ToggleOutcome.ok (match raw with
          | none => !t.isCompleted
          | some s => parseDoneValue s)) ∧
      ((toggleTaskDone db u pk raw).2.lists = db.lists ∧
        (toggleTaskDone db u pk raw).2.tags = db.tags ∧
        (toggleTaskDone db u pk raw).2.tagTasks = db.tagTasks ∧
        (toggleTaskDone db u pk raw).2.collaborators = db.collaborators ∧
        (toggleTaskDone db u pk raw).2.comments = db.comments ∧
        (toggleTaskDone db u pk raw).2.reminders = db.reminders ∧
        (toggleTaskDone db u pk raw).2.events = db.events) ∧
      List.Forall₂ (fun x y =>
          sameExceptCompleted x y ∧
          (x.id ≠ pk → y.isCompleted = x.isCompleted) ∧
          (x.id = pk → y.isCompleted = (match raw with
            | none => !t.isCompleted
            | some s => parseDoneValue s)))
        db.tasks (toggleTaskDone db u pk raw).2.tasks := by
  intro db u pk raw t hget
  unfold toggleTaskDone
  rw [hget]
  dsimp only
  refine ⟨rfl, ⟨rfl, rfl, rfl, rfl, rfl, rfl, rfl⟩, ?_⟩
  apply forall2_map_self
  intro x _
  by_cases hid : x.id = pk
  · rw [if_pos (by simp [hid])]
    exact ⟨⟨rfl, rfl, rfl, rfl, rfl, rfl, rfl⟩, fun hne => absurd hid hne, fun _ => rfl⟩
  · rw [if_neg (by simpa using hid)]
    exact ⟨⟨rfl, rfl, rfl, rfl, rfl, rfl, rfl⟩, fun _ => rfl, fun h => absurd h hid⟩

/-- Witness for C10 at a concrete state: toggling task 10 without a
`done` value flips the flag to true and keeps the tag table intact. -/
theorem c10_toggle_frame_witness :
    (toggleTaskDone exDbOwned 1 10 none).1 = ToggleOutcome.ok true ∧
    (toggleTaskDone exDbOwned 1 10 none).2.tagTasks = exDbOwned.tagTasks := by
  have h := c10_toggle_frame exDbOwned 1 10 none
    ⟨10, "T", "", none, false, 4, 5, some 1⟩ (by decide)
  exact ⟨h.1, h.2.1.2.2.1⟩

end MyPlanner
